import Mathlib

/-!
Shallow embedding of the Evaliq attempt session engine
(src/src/pages/SharedQuiz.tsx, second iteration of the component unless a
name says otherwise).  JavaScript numbers that hold timestamps or seconds
are modelled as `Int`; attempt counts and other non-negative quantities as
`Nat`; `localStorage` keys as `Option`-valued fields (`none` = key absent);
the `Record<string, number>` answer map as an association list queried with
`List.lookup` (a missing key behaves like JavaScript `undefined`, which is
never `===` to a number).
-/

/-- A row of the `questions` table as consumed by the shared-quiz page. -/
structure Question where
  id : String
  question_text : String
  options : List String
  correct_option_index : Int
  order_num : Int
  deriving Repr, DecidableEq

/-- A row inserted into the `quiz_attempts` table by `handleSubmit`. -/
structure AttemptRecord where
  quiz_id : String
  participant_name : String
  answers : List (String × Int)
  score : Nat
  total_questions : Nat
  time_taken_seconds : Int
  tab_switch_count : Nat
  deriving Repr, DecidableEq

/-- The `localStorage` keys owned by the attempt session engine.  Each field
models one key; `none` means the key is absent. -/
structure Store where
  quiz_answers : Option (List (String × Int))
  quiz_start_time : Option Int
  quiz_time_left : Option Int
  quiz_questions : Option (List Question)
  quiz_tab_switches : Option Nat
  quiz_participant : Option String
  quiz_started : Option Bool
  deriving Repr, DecidableEq

/-- The React component state read and written by the submission pipeline. -/
structure SubmitState where
  quizId : String
  participantName : String
  questions : List Question
  answers : List (String × Int)
  submitted : Bool
  blocked : Bool
  score : Nat
  started : Bool
  maxRetries : Nat
  attemptCount : Nat
  warningCount : Nat
  durationMinutes : Option Nat
  deriving Repr, DecidableEq

/-- Scoring loop of `handleSubmit`: `latestQuestions.forEach(q => if
(latestAnswers[q.id] === q.correct_option_index) correct++)`. -/
def computeScore (qs : List Question) (ans : List (String × Int)) : Nat :=
  qs.foldl
    (fun correct q =>
      if ans.lookup q.id = some q.correct_option_index then correct + 1
      else correct)
    0

/-- The `latestAnswers` local of `handleSubmit`: on auto-submit the answers
are re-read from `localStorage` (`quiz_answers`, default empty object),
otherwise the in-memory state is used. -/
def latestAnswers (auto : Bool) (s : SubmitState) (store : Store) :
    List (String × Int) :=
  if auto then store.quiz_answers.getD [] else s.answers

/-- The `latestQuestions` local of `handleSubmit`: the in-memory list when
non-empty, else the `quiz_questions` snapshot from `localStorage`. -/
def latestQuestions (s : SubmitState) (store : Store) : List Question :=
  if 0 < s.questions.length then s.questions
  else store.quiz_questions.getD []

/-- The `checkAttempts` function: an early return when `maxRetries === 0`,
otherwise the remote count (`count || 0`, so a failed query counts as zero)
is stored and `blocked` is set to `attempts >= maxRetries`.  The remote
query result is passed in as `count` (`none` = query failed / no count). -/
def checkAttempts (count : Option Nat) (s : SubmitState) : SubmitState :=
  if s.maxRetries = 0 then s
  else
    let attempts := count.getD 0
    { s with
        attemptCount := attempts
        blocked := decide (attempts ≥ s.maxRetries) }

/-- The derived `retriesLeft = Math.max(maxRetries - attemptCount, 0)`. -/
def retriesLeft (maxRetries attemptCount : Nat) : Int :=
  max ((maxRetries : Int) - (attemptCount : Int)) 0

/-- The `now - startTime` fallback branch of the time-taken computation:
`Math.floor((Date.now() - Number(startTime)) / 1000)`, with 0 when no
`quiz_start_time` key exists. -/
def fallbackTime (startTime : Option Int) (now : Int) : Int :=
  match startTime with
  | some st => (now - st).fdiv 1000
  | none => 0

/-- Time-taken computation of `handleSubmit`: when `durationMinutes` and a
saved `quiz_time_left` value are both truthy, `duration*60 - savedTimeLeft`;
otherwise the elapsed time since `quiz_start_time`; then clamped below by 1
(`Math.max(timeTakenSeconds, 1)`). -/
def computeTimeTaken (durationMinutes : Option Nat) (savedTimeLeft : Option Int)
    (startTime : Option Int) (now : Int) : Int :=
  let base : Int :=
    match durationMinutes, savedTimeLeft with
    | some d, some s =>
        if d = 0 then fallbackTime startTime now else (d : Int) * 60 - s
    | _, _ => fallbackTime startTime now
  max base 1

/-- Result of one `handleSubmit` invocation: the new component state, the
new `localStorage` contents, and the `quiz_attempts` rows inserted. -/
structure SubmitResult where
  state : SubmitState
  store : Store
  inserts : List AttemptRecord
  deriving Repr, DecidableEq

/-- The `handleSubmit(auto)` function of the second iteration.  It refuses
when `blocked`; on a manual submit it refuses while unanswered questions
remain; otherwise it scores the authoritative answer/question pair, inserts
one attempt record, re-runs `checkAttempts` (whose remote count result is
the `count` argument), resets the warning count, and removes the five
progress keys from `localStorage`.  There is no guard on `submitted`. -/
def handleSubmit (auto : Bool) (now : Int) (count : Option Nat)
    (s : SubmitState) (store : Store) : SubmitResult :=
  if s.blocked then ⟨s, store, []⟩
  else if auto = false ∧ s.answers.length < s.questions.length then
    ⟨s, store, []⟩
  else
    let ans := latestAnswers auto s store
    let qs := latestQuestions s store
    let correct := computeScore qs ans
    let record : AttemptRecord :=
      { quiz_id := s.quizId
        participant_name := s.participantName
        answers := ans
        score := correct
        total_questions := qs.length
        time_taken_seconds :=
          computeTimeTaken s.durationMinutes store.quiz_time_left
            store.quiz_start_time now
        tab_switch_count := store.quiz_tab_switches.getD 0 }
    let s1 := checkAttempts count { s with score := correct, submitted := true }
    let s2 := { s1 with warningCount := 0 }
    let store1 :=
      { store with
          quiz_answers := none
          quiz_start_time := none
          quiz_time_left := none
          quiz_questions := none
          quiz_tab_switches := none }
    ⟨s2, store1, [record]⟩

/-- Guard chain of the timer effect: it returns early unless `started`, not
`submitted`, and `timeLeft` is a number `<= 0`; only then does it schedule
`handleSubmit(true)`. -/
def timerEffectFires (started submitted : Bool) (timeLeft : Option Int) :
    Bool :=
  started && !submitted &&
    (match timeLeft with
     | none => false
     | some t => decide (t ≤ 0))

/-- Registration guard of the visibility-change effect: the listener is
installed only when `preventTabSwitch` is set, the quiz is `started`, and
not yet `submitted`. -/
def visibilityEffectActive (preventTabSwitch submitted started : Bool) :
    Bool :=
  preventTabSwitch && !submitted && started

/-- The `incrementTabSwitch` function: read the persisted counter (default
0), add 1; the returned value is also written back to `localStorage`. -/
def incrementTabSwitch (stored : Option Nat) : Nat :=
  stored.getD 0 + 1

/-- Body of `handleVisibilityChange`: on a transition into hidden it
increments and persists the counter and fires `handleSubmit(true)` exactly
when the new count reaches `tabWarnings`.  The result is `some (newCounter,
autoSubmitFired)`, or `none` when nothing happens. -/
def handleVisibilityChange (hidden : Bool) (stored : Option Nat)
    (tabWarnings : Nat) : Option (Nat × Bool) :=
  if hidden then
    let next := incrementTabSwitch stored
    some (next, decide (next ≥ tabWarnings))
  else none

/-- One integrity-monitor step: the visibility handler runs only while the
effect is registered. -/
def integrityStep (preventTabSwitch submitted started hidden : Bool)
    (stored : Option Nat) (tabWarnings : Nat) : Option (Nat × Bool) :=
  if visibilityEffectActive preventTabSwitch submitted started then
    handleVisibilityChange hidden stored tabWarnings
  else none

/-- Result of the Start Quiz click handler. -/
structure StartResult where
  state : SubmitState
  store : Store
  deriving Repr, DecidableEq

/-- The Start Quiz `onClick` handler.  It persists the participant name,
zeroes the tab-switch counter, awaits `checkAttempts`, and then tests
`!blocked` — but `blocked` inside the closure is the value captured at
render time (`capturedBlocked`), not the value `checkAttempts` just
computed, because React state updates do not mutate the captured constant.
When the captured value is `false` it marks the session started and
persists a start timestamp. -/
def startQuizClick (capturedBlocked : Bool) (count : Option Nat) (now : Int)
    (s : SubmitState) (store : Store) : StartResult :=
  let store1 :=
    { store with
        quiz_participant := some s.participantName
        quiz_tab_switches := some 0 }
  let s1 := checkAttempts count { s with warningCount := 0 }
  if capturedBlocked then ⟨s1, store1⟩
  else
    ⟨{ s1 with started := true },
     { store1 with quiz_started := some true, quiz_start_time := some now }⟩

/-- Timer restore of the second iteration (`load`): when a saved
`quiz_time_left` value exists it is restored verbatim; only a first attempt
starts from `duration * 60`.  No deadline is consulted. -/
def restoreTimerV2 (durationMinutes : Nat) (savedTime : Option Int) : Int :=
  match savedTime with
  | some t => t
  | none => (durationMinutes : Int) * 60

/-- Timer restore of the third iteration (`load`): remaining time is
recomputed from the persisted absolute start timestamp as
`Math.floor((startTime + duration*60*1000 - now) / 1000)`, clamped at 0. -/
def restoreTimerV3 (durationMinutes : Nat) (storedStart : Option Int)
    (now : Int) : Int :=
  match storedStart with
  | some startTime =>
      let endTime := startTime + (durationMinutes : Int) * 60 * 1000
      let remaining := (endTime - now).fdiv 1000
      if 0 < remaining then remaining else 0
  | none => (durationMinutes : Int) * 60

/-- Specification-side definition (spec section 4.2), for comparison with
the code: `effectiveLimit = max_retries == 0 ? 1 : max_retries`. -/
def effectiveLimitSpec (maxRetries : Nat) : Nat :=
  if maxRetries = 0 then 1 else maxRetries

/-- Specification-side definition (spec section 4.2), for comparison with
the code: `blocked = attemptCount >= effectiveLimit`. -/
def blockedSpec (maxRetries attemptCount : Nat) : Bool :=
  decide (attemptCount ≥ effectiveLimitSpec maxRetries)

/-- A started, unsubmitted, unblocked session with no retry limit. -/
def baseState : SubmitState :=
  { quizId := "q1"
    participantName := "alice"
    questions := []
    answers := []
    submitted := false
    blocked := false
    score := 0
    started := true
    maxRetries := 0
    attemptCount := 0
    warningCount := 0
    durationMinutes := none }

/-- A `localStorage` in which every engine key is absent. -/
def emptyStore : Store :=
  { quiz_answers := none
    quiz_start_time := none
    quiz_time_left := none
    quiz_questions := none
    quiz_tab_switches := none
    quiz_participant := none
    quiz_started := none }

/-- Auxiliary: the scoring fold counts exactly the questions whose looked-up
answer equals their correct option index. -/
theorem computeScore_foldl_eq (ans : List (String × Int)) :
    ∀ (qs : List Question) (n : Nat),
      qs.foldl
        (fun correct q =>
          if ans.lookup q.id = some q.correct_option_index then correct + 1
          else correct)
        n
      = n + (qs.filter
          (fun q => decide (ans.lookup q.id = some q.correct_option_index))).length := by
  intro qs
  induction qs with
  | nil => intro n; simp
  | cons q rest ih =>
    intro n
    by_cases h : ans.lookup q.id = some q.correct_option_index
    · simp [List.foldl_cons, List.filter_cons, h, ih]
      omega
    · simp [List.foldl_cons, List.filter_cons, h, ih]

/-- C1: the score computed by `handleSubmit` equals the number of questions
in the authoritative list whose looked-up answer equals
`correct_option_index`; an absent entry (`lookup = none`) or a mismatching
entry (including any out-of-range index) contributes 0, and every inserted
attempt record carries exactly this score over the authoritative
answer/question pair. -/
theorem handleSubmit_score_counts_correct_answers :
    (∀ (qs : List Question) (ans : List (String × Int)),
      computeScore qs ans
        = (qs.filter
            (fun q => decide (ans.lookup q.id = some q.correct_option_index))).length) ∧
    (∀ (auto : Bool) (now : Int) (count : Option Nat) (s : SubmitState)
      (store : Store),
      ((handleSubmit auto now count s store).inserts.all
        (fun r =>
          r.score == computeScore (latestQuestions s store)
            (latestAnswers auto s store))) = true) := by
  constructor
  · intro qs ans
    have h := computeScore_foldl_eq ans qs 0
    simpa [computeScore] using h
  · intro auto now count s store
    simp only [handleSubmit]
    split
    · rfl
    · split
      · rfl
      · simp

/-- C2 counterexample: with `max_retries = 0` and one prior attempt by the
same name, `checkAttempts` leaves `blocked = false` (its early return skips
the check entirely), while the spec formula `attemptCount >=
effectiveLimit` with `effectiveLimit = 1` demands `blocked = true`. -/
theorem checkAttempts_zero_retries_not_blocked :
    (checkAttempts (some 1) baseState).blocked = false ∧
    blockedSpec 0 1 = true := by decide

/-- C2 amended: `blocked` and `attemptCount` are computed from `max_retries`
directly, with no `effectiveLimit`: when `maxRetries = 0` the gate is a
no-op, otherwise `blocked` holds iff the count (`count || 0`) is at least
`maxRetries`; and `retriesLeft` with `maxRetries = 0` is 0, never the 1 the
spec formula would give. -/
theorem checkAttempts_uses_raw_max_retries :
    ∀ (count : Option Nat) (s : SubmitState),
      ((checkAttempts count s).blocked
        = if s.maxRetries = 0 then s.blocked
          else decide (count.getD 0 ≥ s.maxRetries)) ∧
      ((checkAttempts count s).attemptCount
        = if s.maxRetries = 0 then s.attemptCount else count.getD 0) ∧
      (∀ a : Nat, retriesLeft 0 a = 0) := by
  intro count s
  refine ⟨?_, ?_, ?_⟩
  · simp only [checkAttempts]
    split <;> simp
  · simp only [checkAttempts]
    split <;> simp
  · intro a
    simp only [retriesLeft, Nat.cast_zero, zero_sub]
    rw [max_eq_right]
    omega

/-- A session that has already reached the terminal submitted state. -/
def submittedState : SubmitState :=
  { baseState with submitted := true }

/-- C3 counterexample: from a state with `submitted = true` (and not
blocked), a further invocation of `handleSubmit` still inserts a new
attempt record — the function has no guard on `submitted`, so an event
arriving after the terminal state is not a no-op. -/
theorem resubmit_after_submitted_inserts_again :
    submittedState.submitted = true ∧
    (handleSubmit true 0 none submittedState emptyStore).inserts.length = 1 := by
  decide

/-- C3 amended: after `submitted = true`, timer expiry and visibility
events are no-ops because their effects are guarded by `submitted`; a
direct call to `handleSubmit`, however, is a no-op only when `blocked` is
set — when not blocked it inserts a new attempt record. -/
theorem post_submit_events_guarded :
    ∀ (s : SubmitState) (store : Store) (timeLeft : Option Int)
      (pts auto : Bool) (now : Int) (count : Option Nat),
      s.submitted = true →
      (timerEffectFires s.started s.submitted timeLeft = false ∧
       visibilityEffectActive pts s.submitted s.started = false ∧
       (s.blocked = true →
         handleSubmit auto now count s store = ⟨s, store, []⟩) ∧
       (s.blocked = false →
         (handleSubmit true now count s store).inserts ≠ [])) := by
  intro s store timeLeft pts auto now count hsub
  refine ⟨?_, ?_, ?_, ?_⟩
  · simp [timerEffectFires, hsub]
  · simp [visibilityEffectActive, hsub]
  · intro hb
    simp [handleSubmit, hb]
  · intro hb
    simp [handleSubmit, hb]

/-- Witness for the C3 amended theorem at a concrete submitted state. -/
theorem post_submit_events_guarded_witness :
    timerEffectFires submittedState.started submittedState.submitted
      (some 0) = false ∧
    visibilityEffectActive true submittedState.submitted
      submittedState.started = false ∧
    (submittedState.blocked = true →
      handleSubmit true 0 none submittedState emptyStore
        = ⟨submittedState, emptyStore, []⟩) ∧
    (submittedState.blocked = false →
      (handleSubmit true 0 none submittedState emptyStore).inserts ≠ []) :=
  post_submit_events_guarded submittedState emptyStore (some 0) true true 0
    none rfl

/-- C4: two consecutive auto-submit invocations from one started,
unsubmitted, unblocked session — the race the spec says the single-flight
submitting guard must prevent — each insert an attempt record: the code has
no such guard, so the session yields two attempt records. -/
theorem double_auto_submit_inserts_twice :
    (handleSubmit true 0 none baseState emptyStore).inserts.length
      + (handleSubmit true 0 none
          (handleSubmit true 0 none baseState emptyStore).state
          (handleSubmit true 0 none baseState emptyStore).store).inserts.length
      = 2 := by decide

/-- A `localStorage` in which every engine key is present. -/
def fullStore : Store :=
  { quiz_answers := some [("a", 1)]
    quiz_start_time := some 0
    quiz_time_left := some 10
    quiz_questions := some []
    quiz_tab_switches := some 2
    quiz_participant := some "alice"
    quiz_started := some true }

/-- C5 counterexample: after a successful submission the engine-owned keys
`quiz_participant` and `quiz_started` are still present — the claim that
participant name and started flag are removed together with the other keys
fails. -/
theorem participant_keys_survive_submit :
    (handleSubmit true 0 none baseState fullStore).inserts.length = 1 ∧
    (handleSubmit true 0 none baseState fullStore).store.quiz_participant
      = some "alice" ∧
    (handleSubmit true 0 none baseState fullStore).store.quiz_started
      = some true := by decide

/-- C5 amended: on every successful submission exactly the five progress
keys — answer map, session start timestamp, remaining-time value, question
snapshot, and tab-switch count — are removed together, while the
participant-name and started-flag keys are left untouched. -/
theorem submit_clears_progress_keys :
    ∀ (auto : Bool) (now : Int) (count : Option Nat) (s : SubmitState)
      (store : Store),
      s.blocked = false →
      (auto = true ∨ s.questions.length ≤ s.answers.length) →
      ((handleSubmit auto now count s store).store.quiz_answers = none ∧
       (handleSubmit auto now count s store).store.quiz_start_time = none ∧
       (handleSubmit auto now count s store).store.quiz_time_left = none ∧
       (handleSubmit auto now count s store).store.quiz_questions = none ∧
       (handleSubmit auto now count s store).store.quiz_tab_switches = none ∧
       (handleSubmit auto now count s store).store.quiz_participant
         = store.quiz_participant ∧
       (handleSubmit auto now count s store).store.quiz_started
         = store.quiz_started) := by
  intro auto now count s store hb hcond
  rcases hcond with h | h
  · simp [handleSubmit, hb, h]
  · simp [handleSubmit, hb, Nat.not_lt.mpr h]

/-- Witness for the C5 amended theorem at a concrete auto-submission. -/
theorem submit_clears_progress_keys_witness :
    (handleSubmit true 0 none baseState fullStore).store.quiz_answers = none ∧
    (handleSubmit true 0 none baseState fullStore).store.quiz_start_time = none ∧
    (handleSubmit true 0 none baseState fullStore).store.quiz_time_left = none ∧
    (handleSubmit true 0 none baseState fullStore).store.quiz_questions = none ∧
    (handleSubmit true 0 none baseState fullStore).store.quiz_tab_switches = none ∧
    (handleSubmit true 0 none baseState fullStore).store.quiz_participant
      = fullStore.quiz_participant ∧
    (handleSubmit true 0 none baseState fullStore).store.quiz_started
      = fullStore.quiz_started :=
  submit_clears_progress_keys true 0 none baseState fullStore rfl (Or.inl rfl)

/-- C6 counterexample: a one-minute quiz started at time 0 ms with the
countdown value 60 persisted at the start; on a reload at 50000 ms the
second iteration restores 60 seconds, while the deadline computation (and
wall clock) leaves only 10 — the reload increased the remaining time, so
the restore is not `max(deadline - now, 0)`. -/
theorem saved_countdown_restore_gains_time :
    restoreTimerV2 1 (some 60) = 60 ∧
    restoreTimerV3 1 (some 0) 50000 = 10 ∧
    restoreTimerV3 1 (some 0) 50000 < restoreTimerV2 1 (some 60) := by
  decide

/-- C6 amended: only the third iteration recomputes the remaining time on
load as `max(floor((startTime + duration*60*1000 - now) / 1000), 0)` from
the persisted absolute start timestamp; the second iteration restores the
persisted countdown value unchanged, independent of the clock. -/
theorem deadline_restore_recomputes_remaining :
    ∀ (d : Nat) (startTime now t : Int),
      restoreTimerV3 d (some startTime) now
        = max ((startTime + (d : Int) * 60 * 1000 - now).fdiv 1000) 0 ∧
      restoreTimerV2 d (some t) = t := by
  intro d startTime now t
  constructor
  · show (if 0 < (startTime + (d : Int) * 60 * 1000 - now).fdiv 1000
        then (startTime + (d : Int) * 60 * 1000 - now).fdiv 1000 else 0)
      = max ((startTime + (d : Int) * 60 * 1000 - now).fdiv 1000) 0
    rcases lt_or_le 0 ((startTime + (d : Int) * 60 * 1000 - now).fdiv 1000)
      with h | h
    · rw [if_pos h, max_eq_left h.le]
    · rw [if_neg (not_lt.mpr h), max_eq_right h]
  · rfl

/-- C7: while the effect is registered (prevent-tab-switch set, started,
not submitted), a transition into hidden reads the persisted tab-switch
counter, increments it by exactly 1, persists the new value, and fires the
auto-submit (`handleSubmit(true)`) exactly when the new value is at or
above `tabWarnings`. -/
theorem tab_switch_increment_and_threshold :
    ∀ (pts sub started hidden : Bool) (stored : Option Nat)
      (tabWarnings : Nat),
      pts = true → sub = false → started = true → hidden = true →
      (integrityStep pts sub started hidden stored tabWarnings
        = some (stored.getD 0 + 1,
            decide (stored.getD 0 + 1 ≥ tabWarnings)) ∧
       incrementTabSwitch stored = stored.getD 0 + 1 ∧
       stored.getD 0 < incrementTabSwitch stored) := by
  intro pts sub started hidden stored tabWarnings h1 h2 h3 h4
  subst h1; subst h2; subst h3; subst h4
  refine ⟨?_, rfl, ?_⟩
  · simp [integrityStep, visibilityEffectActive, handleVisibilityChange,
      incrementTabSwitch]
  · simp [incrementTabSwitch]

/-- Witness for C7 at a persisted counter of 1 and a threshold of 2: the
second hidden transition reaches the threshold and fires the auto-submit. -/
theorem tab_switch_increment_and_threshold_witness :
    integrityStep true false true true (some 1) 2
      = some ((some 1 : Option Nat).getD 0 + 1,
          decide ((some 1 : Option Nat).getD 0 + 1 ≥ 2)) ∧
    incrementTabSwitch (some 1) = (some 1 : Option Nat).getD 0 + 1 ∧
    (some 1 : Option Nat).getD 0 < incrementTabSwitch (some 1) :=
  tab_switch_increment_and_threshold true false true true (some 1) 2
    rfl rfl rfl rfl

/-- Auxiliary: the clamped time-taken computation never returns less than
one second. -/
theorem computeTimeTaken_ge_one (durationMinutes : Option Nat)
    (savedTimeLeft startTime : Option Int) (now : Int) :
    1 ≤ computeTimeTaken durationMinutes savedTimeLeft startTime now := by
  simp only [computeTimeTaken]
  exact le_max_right _ 1

/-- C8: every attempt record written by `handleSubmit` has
`time_taken_seconds >= 1`, for any clock value and stored timer data: the
computed value — `duration*60 - savedTimeLeft` when a duration timer and a
saved remaining time exist, otherwise the elapsed time since the persisted
start — is clamped below by 1. -/
theorem attempt_time_taken_at_least_one :
    (∀ (durationMinutes : Option Nat) (savedTimeLeft startTime : Option Int)
      (now : Int),
      1 ≤ computeTimeTaken durationMinutes savedTimeLeft startTime now) ∧
    (∀ (auto : Bool) (now : Int) (count : Option Nat) (s : SubmitState)
      (store : Store),
      ((handleSubmit auto now count s store).inserts.all
        (fun r => decide (1 ≤ r.time_taken_seconds))) = true) := by
  constructor
  · exact computeTimeTaken_ge_one
  · intro auto now count s store
    simp only [handleSubmit]
    split
    · rfl
    · split
      · rfl
      · simp [computeTimeTaken_ge_one]

/-- C9: when the prior-attempt count query returns no count, `checkAttempts`
treats it as zero prior attempts: with a positive retry limit the resulting
state has `blocked = false` and an attempt count of zero, so the
participant may proceed (fail-open). -/
theorem failed_count_query_fails_open :
    ∀ (s : SubmitState), 0 < s.maxRetries →
      (checkAttempts none s).blocked = false ∧
      (checkAttempts none s).attemptCount = 0 := by
  intro s h
  have hne : s.maxRetries ≠ 0 := Nat.pos_iff_ne_zero.mp h
  constructor
  · simp [checkAttempts, hne]
  · simp [checkAttempts, hne]

/-- A gated session with a retry limit of 2. -/
def retryState : SubmitState :=
  { baseState with maxRetries := 2, started := false }

/-- Witness for C9 at a concrete state with retry limit 2. -/
theorem failed_count_query_fails_open_witness :
    (checkAttempts none retryState).blocked = false ∧
    (checkAttempts none retryState).attemptCount = 0 :=
  failed_count_query_fails_open retryState (by decide)

/-- A fresh session whose identity already has one prior attempt recorded
against a retry limit of 1, before the eligibility query has updated the
rendered `blocked` value. -/
def atLimitState : SubmitState :=
  { baseState with maxRetries := 1, started := false }

/-- C10: the Start click tests the render-time captured `blocked` value,
not the value the awaited `checkAttempts` just computed: with one prior
attempt at a limit of 1 and a captured `blocked = false`, the freshly
computed gate blocks, yet the click still marks the session started and
persists a started flag and a start timestamp. -/
theorem start_click_uses_stale_blocked :
    atLimitState.blocked = false ∧
    (checkAttempts (some 1) atLimitState).blocked = true ∧
    (startQuizClick false (some 1) 1000 atLimitState emptyStore).state.started
      = true ∧
    (startQuizClick false (some 1) 1000 atLimitState emptyStore).store.quiz_started
      = some true ∧
    (startQuizClick false (some 1) 1000 atLimitState emptyStore).store.quiz_start_time
      = some 1000 := by decide
